import Mathlib

/-
Verification of the CallJourneyAnalytics core against its specification.

The development shallowly embeds the two core components of the repository:
the transcript segmenter (src/engine/utils_polars.py) and the rule matcher
and aggregator (src/engine/rule_engine_duckdb.py), together with the
timestamp converter of src/app.py.  Python values that flow through the
code are modelled by `PyVal`; Python exceptions by `PyError`; fallible
functions return `Except PyError _`.  All definitions are executable and
follow the source line by line; external library behaviour that the source
relies on (the `re` module's backtracking, `str.splitlines`, polars
`explode` on empty lists) is modelled explicitly where the source uses it.
-/

/-- Python float as `to_seconds` observes one: a finite float is
abstracted by the two observations the source makes of it — its `int()`
truncation and its `str()` rendering — and the non-finite values NaN and
the two infinities, on which `int()` raises, are separate constructors. -/
inductive PyFloat where
  | finite : Int → String → PyFloat
  | nan : PyFloat
  | inf : PyFloat
  | ninf : PyFloat
deriving DecidableEq

/-- Python value as it appears in a dataframe cell or as a scalar argument:
`none` is Python `None`, `intv` an `int`, `floatv` a `float`, `strv` a
`str`. -/
inductive PyVal where
  | none : PyVal
  | intv : Int → PyVal
  | floatv : PyFloat → PyVal
  | strv : String → PyVal
deriving DecidableEq

/-- Python exception raised by the embedded code.  `valueError`,
`nameError`, `overflowError` and `fileNotFoundError` are the exceptions the
source actually raises.  `schemaError` and `ruleLoadError` are the error
types named by the specification; nothing in the source constructs them —
they exist here only so that the spec's claims about them can be stated. -/
inductive PyError where
  | valueError : String → PyError
  | nameError : String → PyError
  | overflowError : String → PyError
  | fileNotFoundError : String → PyError
  | schemaError : String → PyError
  | ruleLoadError : String → PyError
deriving DecidableEq

/-- Python `str()` of a cell value: `str(None)` is `"None"`, integers print
in decimal, strings are themselves. -/
def pyStr : PyVal → String
  | PyVal.none => "None"
  | PyVal.intv n =>
      if n < 0 then "-" ++ Nat.repr n.natAbs else Nat.repr n.natAbs
  | PyVal.floatv (PyFloat.finite _ rep) => rep
  | PyVal.floatv PyFloat.nan => "nan"
  | PyVal.floatv PyFloat.inf => "inf"
  | PyVal.floatv PyFloat.ninf => "-inf"
  | PyVal.strv s => s

/-- Python whitespace (the ASCII fragment of `str.strip` and of the regex
class `\s`): space, tab, newline, carriage return, vertical tab, form
feed.  The inputs handled by the repository are ASCII-whitespace only, so
the Unicode extension of `str.strip` is not modelled. -/
def pyWs (c : Char) : Bool :=
  c = ' ' || c = '\t' || c = '\n' || c = '\r' || c = '\x0b' || c = '\x0c'

/-- Strip leading and trailing Python whitespace from a character list. -/
def pyStripList (l : List Char) : List Char :=
  ((l.dropWhile pyWs).reverse.dropWhile pyWs).reverse

/-- Python `str.strip()` on a string. -/
def pyStripStr (s : String) : String :=
  String.mk (pyStripList s.toList)

/-- ASCII decimal digit test (the `\d` class and `str.isdigit` on the ASCII
inputs the repository handles). -/
def isDigitChar (c : Char) : Bool :=
  '0' ≤ c && c ≤ '9'

/-- Numeric value of an ASCII digit character. -/
def digitVal (c : Char) : Nat :=
  c.toNat - '0'.toNat

/-- ASCII uppercase conversion of one character (`str.upper` on the ASCII
letters and spaces captured by the speaker group). -/
def asciiUpper (c : Char) : Char :=
  if 'a' ≤ c && c ≤ 'z' then Char.ofNat (c.toNat - 32) else c

/-- ASCII lowercase conversion of one character (`str.lower` on the ASCII
letters captured by the term extractor). -/
def asciiLower (c : Char) : Char :=
  if 'A' ≤ c && c ≤ 'Z' then Char.ofNat (c.toNat + 32) else c

/-- Python `str.splitlines` restricted to the `\n`, `\r\n` and `\r` line
breaks (the breaks occurring in the repository's inputs); no trailing empty
line is produced, matching Python. -/
def pySplitlinesAux : List Char → List Char → List String
  | [], acc => if acc.isEmpty then [] else [String.mk acc.reverse]
  | '\r' :: '\n' :: rest, acc => String.mk acc.reverse :: pySplitlinesAux rest []
  | '\r' :: rest, acc => String.mk acc.reverse :: pySplitlinesAux rest []
  | '\n' :: rest, acc => String.mk acc.reverse :: pySplitlinesAux rest []
  | c :: rest, acc => pySplitlinesAux rest (c :: acc)

/-- Python `str.splitlines` of a string. -/
def pySplitlines (s : String) : List String :=
  pySplitlinesAux s.toList []

/-- Python `repr` of a list of strings, as an f-string renders
`df.columns`: single-quoted elements joined by a comma and a space inside
square brackets. -/
def pyReprStrList (l : List String) : String :=
  "[" ++ String.intercalate ", " (l.map (fun c => "\x27" ++ c ++ "\x27")) ++ "]"

/-
The transcript line pattern of src/engine/utils_polars.py line 122:

    ^\[(\d{2}):(\d{2}):(\d{2})\]\s*([A-Za-z ]+)\s*:\s*(.*)$

compiled by hand into an executable matcher with Python's leftmost-greedy
backtracking semantics.  Every quantified subexpression is a character
class, so greedy backtracking is exactly: try the candidate lengths of each
quantifier in decreasing order, nested left to right, and take the first
full success.  The lines fed to the matcher come from `splitlines` followed
by `strip`, hence contain no line breaks, so `(.*)$` always consumes the
remainder once a `:` has been found.
-/

/-- Character class `[A-Za-z ]` of the speaker group. -/
def spkChar (c : Char) : Bool :=
  ('A' ≤ c && c ≤ 'Z') || ('a' ≤ c && c ≤ 'z') || c = ' '

/-- Length of the maximal prefix run of characters satisfying `p`. -/
def runLen (p : Char → Bool) : List Char → Nat
  | [] => 0
  | c :: cs => if p c then runLen p cs + 1 else 0

/-- Candidate lengths a greedy `p*` tries at the head of `t`, in the order
backtracking visits them: maximal run first, down to zero. -/
def starCandidates (p : Char → Bool) (t : List Char) : List Nat :=
  (List.range (runLen p t + 1)).reverse

/-- Candidate lengths a greedy `p+` tries: maximal run first, down to one. -/
def plusCandidates (p : Char → Bool) (t : List Char) : List Nat :=
  (starCandidates p t).filter (fun k => 1 ≤ k)

/-- Backtracking match of the tail `\s*([A-Za-z ]+)\s*:\s*(.*)$` against
the characters after the closing bracket; returns the speaker and text
captures of the first (leftmost-greedy) full match. -/
def matchTail (t : List Char) : Option (String × String) :=
  (starCandidates pyWs t).findSome? fun a =>
    let t1 := t.drop a
    (plusCandidates spkChar t1).findSome? fun b =>
      let t2 := t1.drop b
      (starCandidates pyWs t2).findSome? fun c =>
        match t2.drop c with
        | ':' :: t3 =>
            let d := runLen pyWs t3
            Option.some (String.mk (t1.take b), String.mk (t3.drop d))
        | _ => Option.none

/-- Full line match of
`^\[(\d{2}):(\d{2}):(\d{2})\]\s*([A-Za-z ]+)\s*:\s*(.*)$` under `re.match`:
the head `\[\d{2}:\d{2}:\d{2}\]` is rigid and matched structurally, the
tail by `matchTail`.  Returns `(hour, minute, second, speaker, text)`
captures, or `none` when the line does not match. -/
def matchLine (ln : String) : Option (Nat × Nat × Nat × String × String) :=
  match ln.toList with
  | '[' :: h1 :: h2 :: ':' :: m1 :: m2 :: ':' :: s1 :: s2 :: ']' :: rest =>
      if isDigitChar h1 && isDigitChar h2 && isDigitChar m1 && isDigitChar m2
          && isDigitChar s1 && isDigitChar s2 then
        (matchTail rest).map fun pr =>
          (digitVal h1 * 10 + digitVal h2,
           digitVal m1 * 10 + digitVal m2,
           digitVal s1 * 10 + digitVal s2,
           pr.1, pr.2)
      else Option.none
  | _ => Option.none

/-- Utterance row produced by `explode_raw_transcript_column`: the
`call_id` cell keeps the Python value taken from the source row (or the
synthesized string), `timestamp` is the computed second count, `speaker`
and `text` the processed captures. -/
structure URow where
  call_id : PyVal
  timestamp : Nat
  speaker : String
  text : String
deriving DecidableEq

/-- Input dataframe as the function sees it: the column names, and the
rows as association lists exactly as `df.to_dicts()` yields them. -/
structure RawDF where
  columns : List String
  rows : List (List (String × PyVal))

/-- Call id chosen for one source row:
`rec.get(call_id_col) if call_id_col and call_id_col in rec else f"CALL_{i}"`
— the column value when a non-empty column name is supplied and present in
the record, otherwise the synthesized `CALL_<i>` with the 1-based row
index. -/
def callIdFor (call_id_col : Option String) (rec : List (String × PyVal)) (i : Nat) : PyVal :=
  match call_id_col with
  | Option.some c =>
      if c = "" then PyVal.strv ("CALL_" ++ Nat.repr i)
      else
        match rec.lookup c with
        | Option.some v => v
        | Option.none => PyVal.strv ("CALL_" ++ Nat.repr i)
  | Option.none => PyVal.strv ("CALL_" ++ Nat.repr i)

/-- Parse one stripped line: on a regex match, build the utterance fields —
`timestamp = h*3600 + m*60 + s`, speaker capture stripped and upper-cased,
text capture stripped. -/
def parseLine (ln : String) : Option (Nat × String × String) :=
  (matchLine ln).map fun q =>
    (q.1 * 3600 + q.2.1 * 60 + q.2.2.1,
     String.mk ((pyStripList q.2.2.2.1.toList).map asciiUpper),
     pyStripStr q.2.2.2.2)

/-- Rows contributed by one source record: `str(rec.get(raw_col, ""))` is
stripped, empty values are skipped, the value is split into lines, each
line stripped, blank lines skipped, non-matching lines dropped, matching
lines emitted with the record's call id. -/
def parseRecord (raw_col : String) (call_id_col : Option String) (i : Nat)
    (rec : List (String × PyVal)) : List URow :=
  let raw_value := pyStripStr (pyStr ((rec.lookup raw_col).getD (PyVal.strv "")))
  if raw_value = "" then []
  else
    let cid := callIdFor call_id_col rec i
    (pySplitlines raw_value).foldr
      (fun ln0 acc =>
        let ln := pyStripStr ln0
        (if ln = "" then []
         else
           match parseLine ln with
           | Option.some q => [URow.mk cid q.1 q.2.1 q.2.2]
           | Option.none => []) ++ acc)
      []

/-- Rows collected over all records, enumerating from the given 1-based
index as `enumerate(df.to_dicts(), start=1)` does. -/
def collectRows (raw_col : String) (call_id_col : Option String) :
    Nat → List (List (String × PyVal)) → List URow
  | _, [] => []
  | i, rec :: rest =>
      parseRecord raw_col call_id_col i rec ++ collectRows raw_col call_id_col (i + 1) rest

/-- Embedding of `explode_raw_transcript_column`
(src/engine/utils_polars.py lines 80-138).  A missing raw column raises
`ValueError` with the message the f-string builds.  When every line of
every row fails the pattern the source reaches `st.warning(...)` — but the
module never imports or defines `st`, so Python raises
`NameError: name 'st' is not defined` there instead of returning the empty
dataframe the branch intends to return. -/
def explode_raw_transcript_column (df : RawDF) (raw_col : String)
    (call_id_col : Option String) : Except PyError (List URow) :=
  if df.columns.contains raw_col then
    let rows := collectRows raw_col call_id_col 1 df.rows
    if rows.isEmpty then
      Except.error (PyError.nameError "name \x27st\x27 is not defined")
    else
      Except.ok rows
  else
    Except.error (PyError.valueError
      ("Column \x27" ++ raw_col ++ "\x27 not found. Available columns: "
        ++ pyReprStrList df.columns))

/-
Timestamp converter `to_seconds` of src/app.py lines 66-78.
-/

/-- Digit characters as Python `str.isdigit` classifies them: the ASCII
decimal digits together with the superscript digits one, two, three
(U+00B9, U+00B2, U+00B3), representatives of the wider Unicode
`Numeric_Type=Digit` class that `isdigit` accepts but `int()` rejects.
(The full Unicode digit table is outside the embedding; these members
suffice to reach every branch the source has.) -/
def pyDigitChar (c : Char) : Bool :=
  isDigitChar c || c = '¹' || c = '²' || c = '³'

/-- Python `str.isdigit`: non-empty and every character a digit
character. -/
def pyIsDigit (s : String) : Bool :=
  !s.toList.isEmpty && s.toList.all pyDigitChar

/-- Natural number denoted by a list of ASCII digit characters. -/
def digitsVal : List Char → Nat → Nat
  | [], acc => acc
  | c :: cs, acc => digitsVal cs (acc * 10 + digitVal c)

/-- Python `int(s)` on a string: strips whitespace, accepts an optional
sign followed by one or more ASCII digits, and fails (`None`) otherwise.
(Underscore digit separators accepted by CPython are not modelled; no
input of the claims contains them.) -/
def pyIntStr (s : String) : Option Int :=
  match pyStripList s.toList with
  | '-' :: ds =>
      if !ds.isEmpty && ds.all isDigitChar then Option.some (-(digitsVal ds 0 : Int))
      else Option.none
  | '+' :: ds =>
      if !ds.isEmpty && ds.all isDigitChar then Option.some (digitsVal ds 0 : Int)
      else Option.none
  | ds =>
      if !ds.isEmpty && ds.all isDigitChar then Option.some (digitsVal ds 0 : Int)
      else Option.none

/-- Python `str.split(":")`: cut at every colon, keeping empty pieces. -/
def splitColonAux : List Char → List Char → List String
  | [], acc => [String.mk acc.reverse]
  | ':' :: rest, acc => String.mk acc.reverse :: splitColonAux rest []
  | c :: rest, acc => splitColonAux rest (c :: acc)

/-- Python `s.split(":")` on a string. -/
def pySplitColon (s : String) : List String :=
  splitColonAux s.toList []

/-- Parse of the `try` block of `to_seconds`: the stripped string must
split on `:` into exactly three pieces and each piece must parse with
`int()`; any failure there is caught by the source and mapped to 0. -/
def parsesHMS (s : String) : Option (Int × Int × Int) :=
  match pySplitColon s with
  | [a, b, c] =>
      match pyIntStr a, pyIntStr b, pyIntStr c with
      | Option.some h, Option.some m, Option.some sec => Option.some (h, m, sec)
      | _, _, _ => Option.none
  | _ => Option.none

/-- Embedding of `to_seconds` (src/app.py lines 66-78): 0 for `None`,
`int(x)` for an `int` or `float` — truncation for a finite float, but an
uncaught `ValueError` on NaN and `OverflowError` on an infinity, since the
`isinstance` branch sits outside the `try` — and for strings: strip, then
if `s.isdigit()` return `int(s)`, also outside the `try`, so it raises
`ValueError` when the digit characters are not decimal digits (e.g. a
superscript); otherwise try `hh, mm, ss = s.split(":")` and return
`int(hh)*3600 + int(mm)*60 + int(ss)`, with every failure inside the `try`
caught and mapped to 0. -/
def to_seconds (x : PyVal) : Except PyError Int :=
  match x with
  | PyVal.none => Except.ok 0
  | PyVal.intv n => Except.ok n
  | PyVal.floatv (PyFloat.finite t _) => Except.ok t
  | PyVal.floatv PyFloat.nan =>
      Except.error (PyError.valueError "cannot convert float NaN to integer")
  | PyVal.floatv PyFloat.inf =>
      Except.error (PyError.overflowError "cannot convert float infinity to integer")
  | PyVal.floatv PyFloat.ninf =>
      Except.error (PyError.overflowError "cannot convert float infinity to integer")
  | PyVal.strv raw =>
      let s := pyStripStr raw
      if pyIsDigit s then
        match pyIntStr s with
        | Option.some v => Except.ok v
        | Option.none =>
            Except.error (PyError.valueError
              ("invalid literal for int() with base 10: \x27" ++ s ++ "\x27"))
      else
        match parsesHMS s with
        | Option.some q => Except.ok (3600 * q.1 + 60 * q.2.1 + q.2.2)
        | Option.none => Except.ok 0

/-
Rule loading, src/engine/rule_engine_duckdb.py lines 9-29.
-/

/-- Rule file contents as far as loading is concerned: the column names of
the table read from disk.  `load_rules` reads the file and returns it
without inspecting the columns, so nothing more is needed. -/
structure RuleTable where
  columns : List String
deriving DecidableEq

/-- Search paths for the embedded rules, in probe order. -/
def RULE_PATHS : List String :=
  ["rules/rules_embedded.parquet", "rules/rules_embedded.csv"]

/-- Embedding of `load_rules`: the filesystem is an association list from
path to the table stored there; the first existing path of `RULE_PATHS` is
read and returned as-is — no column validation of any kind happens — and
when neither path exists a `FileNotFoundError` is raised. -/
def load_rules (fs : List (String × RuleTable)) : Except PyError RuleTable :=
  match RULE_PATHS.findSome? (fun p => fs.lookup p) with
  | Option.some t => Except.ok t
  | Option.none =>
      Except.error (PyError.fileNotFoundError
        "Rules not found. Place your compiled rules at rules/rules_embedded.csv or .parquet")

/-
Rule matcher and aggregator, src/engine/rule_engine_duckdb.py lines 42-106.
-/

/-- Utterance record as the matcher consumes it (the four canonical
columns). -/
structure Utterance where
  call_id : String
  timestamp : Int
  speaker : String
  text : String
deriving DecidableEq

/-- Rule record with the columns of the embedded rule table. -/
structure Rule where
  rule_id : String
  query_name : String
  industry : String
  category : String
  subcategory : String
  compiled_regex : String
deriving DecidableEq

/-- Row of the Match table: the SELECT list of the rule-application query —
all utterance columns, the four projected rule columns, and the computed
boolean column `match` (`REGEXP_LIKE(u.text, r.compiled_regex) AS match`). -/
structure MatchRow where
  call_id : String
  timestamp : Int
  speaker : String
  text : String
  rule_id : String
  query_name : String
  category : String
  subcategory : String
  «match» : Bool
deriving DecidableEq

/-- Row of the journey summary: `GROUP BY call_id` with
`LIST(DISTINCT category)`, `LIST(DISTINCT subcategory)` and `COUNT(*)`. -/
structure SummaryRow where
  call_id : String
  categories : List String
  subcategories : List String
  total_hits : Nat
deriving DecidableEq

/-- Concatenation of the lists produced for each element (the shape of a
FROM-clause cross product and of a polars explode). -/
def concatMap (f : α → List β) : List α → List β
  | [] => []
  | a :: l => f a ++ concatMap f l

/-- Cross product `FROM utter u, rules r`, one pair per utterance and rule,
row-major. -/
def crossJoin (us : List Utterance) (rs : List Rule) : List (Utterance × Rule) :=
  concatMap (fun u => rs.map fun r => (u, r)) us

/-- Row of the SELECT list for one (utterance, rule) pair; `rsearch` is the
DuckDB `REGEXP_LIKE` predicate (partial-match regex search), kept as a
parameter because the regex engine is an external collaborator of the
core. -/
def mkMatchRow (rsearch : String → String → Bool) (u : Utterance) (r : Rule) : MatchRow :=
  MatchRow.mk u.call_id u.timestamp u.speaker u.text
    r.rule_id r.query_name r.category r.subcategory
    (rsearch u.text r.compiled_regex)

/-- Summary aggregation query over the Match table: one group per distinct
`call_id`, with the distinct category and subcategory lists and the row
count of the group.  (SQL GROUP BY emits groups in no specified order; the
embedding fixes an order, and the claims are stated order-insensitively.) -/
def journey_summary (mtable : List MatchRow) : List SummaryRow :=
  ((mtable.map MatchRow.call_id).dedup).map fun cid =>
    let grp := mtable.filter (fun m => m.call_id == cid)
    SummaryRow.mk cid ((grp.map MatchRow.category).dedup)
      ((grp.map MatchRow.subcategory).dedup) grp.length

/-- Embedding of `categorize_utterances` (src/engine/rule_engine_duckdb.py
lines 42-86): compute `match` for every pair of the cross product, keep the
rows `WHERE match`, and aggregate the kept rows into the journey summary. -/
def categorize_utterances (rsearch : String → String → Bool)
    (utter : List Utterance) (rules : List Rule) :
    List MatchRow × List SummaryRow :=
  let rows := (crossJoin utter rules).map fun p => mkMatchRow rsearch p.1 p.2
  let mtable := rows.filter (fun row => row.«match»)
  (mtable, journey_summary mtable)

/-- ASCII letter test (the class `[A-Za-z]` of the term extractor). -/
def isAsciiLetter (c : Char) : Bool :=
  ('A' ≤ c && c ≤ 'Z') || ('a' ≤ c && c ≤ 'z')

/-- Maximal runs of ASCII letters in a character list, left to right (the
matches of `re.findall(r"[A-Za-z]{4,}")` before the length filter). -/
def letterRunsAux : List Char → List Char → List (List Char)
  | [], acc => if acc.isEmpty then [] else [acc.reverse]
  | c :: cs, acc =>
      if isAsciiLetter c then letterRunsAux cs (c :: acc)
      else if acc.isEmpty then letterRunsAux cs []
      else acc.reverse :: letterRunsAux cs []

/-- Term extractor of `speaker_term_buckets`:
`[w.lower() for w in re.findall(r"[A-Za-z]{4,}", str(text))][:50]` — the
maximal 4-plus-letter runs in order, lower-cased, capped at the first 50. -/
def extract_terms (text : String) : List String :=
  ((((letterRunsAux text.toList []).filter fun r => 4 ≤ r.length).map
      fun r => String.mk (r.map asciiLower)).take 50)

/-- Row of the speaker term bucket table: the group keys `call_id`,
`speaker`, `terms` and the count column `len` produced by
`group_by(...).len()`.  The `terms` key is an `Option` because polars
`explode` turns an utterance whose term list is empty into a single row
with a null term. -/
structure BucketRow where
  call_id : String
  speaker : String
  terms : Option String
  len : Nat
deriving DecidableEq

/-- Exploded term table: one `(call_id, speaker, term)` triple per
extracted term of each utterance, and — per polars `explode` on an empty
list — one triple with a null term for an utterance with no extracted
terms. -/
def explodeTerms (utter : List Utterance) : List (String × String × Option String) :=
  concatMap
    (fun u =>
      let ts := extract_terms u.text
      if ts.isEmpty then [(u.call_id, u.speaker, (Option.none : Option String))]
      else ts.map fun t => (u.call_id, u.speaker, Option.some t))
    utter

/-- Grouped counts of the exploded term table: one row per distinct key
triple, counting its occurrences. -/
def groupBuckets (utter : List Utterance) : List BucketRow :=
  let ex := explodeTerms utter
  ex.dedup.map fun k => BucketRow.mk k.1 k.2.1 k.2.2 (ex.count k)

/-- Sort order of `speaker_term_buckets`: `call_id` ascending, then
`speaker` ascending, then `len` descending. -/
def bucketRel (a b : BucketRow) : Prop :=
  a.call_id < b.call_id ∨
    (a.call_id = b.call_id ∧
      (a.speaker < b.speaker ∨ (a.speaker = b.speaker ∧ b.len ≤ a.len)))

instance : DecidableRel bucketRel := fun a b => by
  unfold bucketRel
  exact inferInstance

instance : IsTotal BucketRow bucketRel := by
  constructor
  intro a b
  unfold bucketRel
  rcases lt_trichotomy a.call_id b.call_id with h | h | h
  · exact Or.inl (Or.inl h)
  · rcases lt_trichotomy a.speaker b.speaker with h2 | h2 | h2
    · exact Or.inl (Or.inr ⟨h, Or.inl h2⟩)
    · rcases Nat.le_total b.len a.len with h3 | h3
      · exact Or.inl (Or.inr ⟨h, Or.inr ⟨h2, h3⟩⟩)
      · exact Or.inr (Or.inr ⟨h.symm, Or.inr ⟨h2.symm, h3⟩⟩)
    · exact Or.inr (Or.inr ⟨h.symm, Or.inl h2⟩)
  · exact Or.inr (Or.inl h)

instance : IsTrans BucketRow bucketRel := by
  constructor
  intro a b c hab hbc
  unfold bucketRel at hab hbc ⊢
  rcases hab with h1 | ⟨e1, h1⟩
  · rcases hbc with h2 | ⟨e2, _⟩
    · exact Or.inl (lt_trans h1 h2)
    · exact Or.inl (e2 ▸ h1)
  · rcases hbc with h2 | ⟨e2, h2⟩
    · exact Or.inl (e1 ▸ h2)
    · refine Or.inr ⟨e1.trans e2, ?_⟩
      rcases h1 with h1 | ⟨f1, h1⟩
      · rcases h2 with h2 | ⟨f2, _⟩
        · exact Or.inl (lt_trans h1 h2)
        · exact Or.inl (f2 ▸ h1)
      · rcases h2 with h2 | ⟨f2, h2⟩
        · exact Or.inl (f1 ▸ h2)
        · exact Or.inr ⟨f1.trans f2, le_trans h2 h1⟩

/-- Embedding of `speaker_term_buckets` (src/engine/rule_engine_duckdb.py
lines 89-106): explode the extracted terms, group by
`(call_id, speaker, terms)` with counts, and sort by `call_id` ascending,
`speaker` ascending, `len` descending. -/
def speaker_term_buckets (utter : List Utterance) : List BucketRow :=
  List.insertionSort bucketRel (groupBuckets utter)

/-- Two-digit decimal rendering of a field of an `HH:MM:SS` timestamp. -/
def pad2 (n : Nat) : String :=
  if n < 10 then "0" ++ Nat.repr n else Nat.repr n

/-- Reformatting of one segmenter output row back into a
`[HH:MM:SS SPEAKER]: text` line, as the idempotence claim of the
specification describes the round trip (this definition follows the
claim's words; it has no counterpart in the source). -/
def reformat_line (u : URow) : String :=
  "[" ++ pad2 (u.timestamp / 3600) ++ ":" ++ pad2 (u.timestamp % 3600 / 60)
    ++ ":" ++ pad2 (u.timestamp % 60) ++ " " ++ u.speaker ++ "]: " ++ u.text

/-- List prefix test on character lists, used by the concrete substring
searcher below. -/
def isPrefixList : List Char → List Char → Bool
  | [], _ => true
  | _ :: _, [] => false
  | a :: as, b :: bs => a == b && isPrefixList as bs

/-- Substring occurrence test on character lists. -/
def hasSubstr (p : List Char) : List Char → Bool
  | [] => p.isEmpty
  | c :: rest => isPrefixList p (c :: rest) || hasSubstr p rest

/-- Concrete regex-search predicate used by the witnesses: partial-match
search of a literal pattern, the semantics `REGEXP_LIKE` gives a pattern
with no metacharacters. -/
def rsearchDemo (text pat : String) : Bool :=
  hasSubstr pat.toList text.toList

/-
Helper lemmas about the list combinators of the embedding.
-/

theorem mem_concatMap {f : α → List β} {l : List α} {b : β} :
    b ∈ concatMap f l ↔ ∃ a ∈ l, b ∈ f a := by
  induction l with
  | nil => simp [concatMap]
  | cons x xs ih => simp [concatMap, ih]

theorem mem_crossJoin {us : List Utterance} {rs : List Rule} {p : Utterance × Rule} :
    p ∈ crossJoin us rs ↔ p.1 ∈ us ∧ p.2 ∈ rs := by
  cases p with
  | mk u r =>
    simp only [crossJoin, mem_concatMap, List.mem_map, Prod.mk.injEq]
    constructor
    · rintro ⟨a, ha, r2, hr2, he1, he2⟩
      subst he1
      subst he2
      exact ⟨ha, hr2⟩
    · rintro ⟨hu, hr⟩
      exact ⟨u, hu, r, hr, rfl, rfl⟩

theorem crossJoin_nodup {us : List Utterance} {rs : List Rule}
    (hu : us.Nodup) (hr : rs.Nodup) : (crossJoin us rs).Nodup := by
  induction us with
  | nil => exact List.nodup_nil
  | cons u us ih =>
    rw [List.nodup_cons] at hu
    have h2 : (crossJoin us rs).Nodup := ih hu.2
    show ((rs.map fun r => (u, r)) ++ crossJoin us rs).Nodup
    refine List.Nodup.append (hr.map ?_) h2 ?_
    · intro a b h
      simpa using congrArg Prod.snd h
    · rw [List.disjoint_left]
      intro p hp1 hp2
      have e1 : p.1 = u := by
        obtain ⟨r2, _, he⟩ := List.mem_map.mp hp1
        simpa using (congrArg Prod.fst he).symm
      have e2 : p.1 ∈ us := (mem_crossJoin.mp hp2).1
      exact hu.1 (e1 ▸ e2)

theorem count_map_eq_countP [DecidableEq β] (f : α → β) (l : List α) (b : β) :
    (l.map f).count b = l.countP (fun a => f a == b) := by
  induction l with
  | nil => rfl
  | cons x xs ih => simp [List.count_cons, List.countP_cons, ih]

theorem countP_eq_one_of_unique {l : List α} {p : α → Bool} {a : α}
    (hnd : l.Nodup) (ha : a ∈ l) (hpa : p a = true)
    (huniq : ∀ b ∈ l, p b = true → b = a) : l.countP p = 1 := by
  induction l with
  | nil => cases ha
  | cons x xs ih =>
    rw [List.nodup_cons] at hnd
    rw [List.countP_cons]
    rcases List.mem_cons.mp ha with h | h
    · subst h
      have hz : xs.countP p = 0 := by
        rw [List.countP_eq_zero]
        intro b hb hpb
        have hba := huniq b (List.mem_cons_of_mem _ hb) hpb
        subst hba
        exact absurd hb hnd.1
      simp [hz, hpa]
    · have hx : p x = false := by
        cases hpx : p x with
        | false => rfl
        | true =>
          have hxa := huniq x (List.mem_cons_self _ _) hpx
          subst hxa
          exact absurd h hnd.1
      rw [ih hnd.2 h fun b hb hpb => huniq b (List.mem_cons_of_mem _ hb) hpb]
      simp [hx]

/-- Claim C1: for every non-empty rule table and non-empty utterance table
(utterance rows distinct, rule identifiers unique, as the data model
requires), the Match table of `categorize_utterances` is sound — every row
is the projection of a pair whose regex search succeeded — and complete —
every matching (utterance, rule) pair appears exactly once, and no row
exists for a non-matching pair. -/
theorem c1_categorize_sound_complete
    (rsearch : String → String → Bool) (utter : List Utterance) (rules : List Rule)
    (_hU : utter ≠ []) (_hR : rules ≠ [])
    (hdU : utter.Nodup) (hdR : (rules.map Rule.rule_id).Nodup) :
    (∀ row ∈ (categorize_utterances rsearch utter rules).1,
        ∃ u ∈ utter, ∃ r ∈ rules,
          row = mkMatchRow rsearch u r ∧ rsearch u.text r.compiled_regex = true) ∧
    (∀ u ∈ utter, ∀ r ∈ rules, rsearch u.text r.compiled_regex = true →
        ((categorize_utterances rsearch utter rules).1).count (mkMatchRow rsearch u r) = 1) ∧
    (∀ u : Utterance, ∀ r : Rule, rsearch u.text r.compiled_regex = false →
        mkMatchRow rsearch u r ∉ (categorize_utterances rsearch utter rules).1) := by
  refine ⟨?_, ?_, ?_⟩
  · intro row hrow
    simp only [categorize_utterances, List.mem_filter, List.mem_map] at hrow
    obtain ⟨⟨q, hq, hqe⟩, hmatch⟩ := hrow
    obtain ⟨hq1, hq2⟩ := mem_crossJoin.mp hq
    refine ⟨q.1, hq1, q.2, hq2, hqe.symm, ?_⟩
    subst hqe
    exact hmatch
  · intro u hu r hr htrue
    have hcnt1 : ((categorize_utterances rsearch utter rules).1).count (mkMatchRow rsearch u r) =
        (((crossJoin utter rules).map fun p => mkMatchRow rsearch p.1 p.2).count
          (mkMatchRow rsearch u r)) := by
      simp only [categorize_utterances]
      exact List.count_filter (by simpa [mkMatchRow] using htrue)
    rw [hcnt1, count_map_eq_countP]
    refine countP_eq_one_of_unique (a := (u, r))
      (crossJoin_nodup hdU (hdR.of_map _)) (mem_crossJoin.mpr ⟨hu, hr⟩)
      (by simp) ?_
    rintro ⟨⟨qa, qb, qc, qd⟩, ⟨p1, p2, p3, p4, p5, p6⟩⟩ hq hpq
    obtain ⟨hq1, hq2⟩ := mem_crossJoin.mp hq
    rw [beq_iff_eq] at hpq
    cases u with
    | mk ua ub uc ud =>
      cases r with
      | mk r1 r2 r3 r4 r5 r6 =>
        simp only [mkMatchRow, MatchRow.mk.injEq] at hpq
        obtain ⟨e1, e2, e3, e4, e5, e6, e7, e8, _⟩ := hpq
        subst e1
        subst e2
        subst e3
        subst e4
        have hrr : (Rule.mk p1 p2 p3 p4 p5 p6) = (Rule.mk r1 r2 r3 r4 r5 r6) :=
          List.inj_on_of_nodup_map hdR hq2 hr (by simpa using e5)
        rw [Prod.mk.injEq]
        exact ⟨rfl, hrr⟩
  · intro u r hfalse hmem
    simp only [categorize_utterances, List.mem_filter] at hmem
    have : (mkMatchRow rsearch u r).«match» = true := hmem.2
    rw [show (mkMatchRow rsearch u r).«match» = rsearch u.text r.compiled_regex from rfl,
      hfalse] at this
    cases this

/-- Utterance table of the specification's worked scenario, used to
instantiate the matcher theorems. -/
def c1_utts : List Utterance :=
  [Utterance.mk "CALL_1" 5 "AGENT" "Hello there",
   Utterance.mk "CALL_1" 10 "CUSTOMER" "I need help with billing"]

/-- Rule table of the specification's worked scenario: one billing rule. -/
def c1_rules : List Rule :=
  [Rule.mk "R1" "Q1" "Telecom" "Billing" "General" "billing"]

/-- Witness for claim C1: on the scenario tables the matching pair appears
exactly once in the Match table. -/
theorem c1_witness :
    ((categorize_utterances rsearchDemo c1_utts c1_rules).1).count
      (mkMatchRow rsearchDemo (Utterance.mk "CALL_1" 10 "CUSTOMER" "I need help with billing")
        (Rule.mk "R1" "Q1" "Telecom" "Billing" "General" "billing")) = 1 :=
  (c1_categorize_sound_complete rsearchDemo c1_utts c1_rules (by decide) (by decide)
      (by decide) (by decide)).2.1
    (Utterance.mk "CALL_1" 10 "CUSTOMER" "I need help with billing") (by decide)
    (Rule.mk "R1" "Q1" "Telecom" "Billing" "General" "billing") (by decide) (by decide)

/-- Claim C5: for every Match table, the journey summary has exactly one
row per call id appearing in the Match table (distinct row keys, and a key
appears in the summary exactly when it appears in the Match table — in
particular a call id with zero Match rows is absent), `total_hits` counts
the Match rows of that call id, and `categories` is the distinct set of
their category values. -/
theorem c5_journey_summary_spec (mtable : List MatchRow) :
    ((journey_summary mtable).map SummaryRow.call_id).Nodup ∧
    (∀ cid : String, cid ∈ (journey_summary mtable).map SummaryRow.call_id ↔
        cid ∈ mtable.map MatchRow.call_id) ∧
    (∀ row ∈ journey_summary mtable,
        row.total_hits = (mtable.filter fun m => m.call_id == row.call_id).length ∧
        row.categories.Nodup ∧
        (∀ c : String, c ∈ row.categories ↔
            ∃ m ∈ mtable, m.call_id = row.call_id ∧ m.category = c)) := by
  have hmap : (journey_summary mtable).map SummaryRow.call_id =
      (mtable.map MatchRow.call_id).dedup := by
    unfold journey_summary
    rw [List.map_map]
    exact List.map_id _
  refine ⟨?_, ?_, ?_⟩
  · rw [hmap]
    exact List.nodup_dedup _
  · intro cid
    rw [hmap]
    exact List.mem_dedup
  · intro row hrow
    unfold journey_summary at hrow
    obtain ⟨cid, _, hre⟩ := List.mem_map.mp hrow
    have hcid : row.call_id = cid := by rw [← hre]
    subst hre
    refine ⟨rfl, List.nodup_dedup _, ?_⟩
    intro c
    rw [List.mem_dedup, List.mem_map]
    constructor
    · rintro ⟨m, hm, hmc⟩
      obtain ⟨hm1, hm2⟩ := List.mem_filter.mp hm
      exact ⟨m, hm1, by simpa using hm2, hmc⟩
    · rintro ⟨m, hm1, hm2, hmc⟩
      exact ⟨m, List.mem_filter.mpr ⟨hm1, by simpa using hm2⟩, hmc⟩

/-- Match table used to instantiate the journey summary theorem. -/
def c5_mtable : List MatchRow :=
  [MatchRow.mk "CALL_1" 10 "CUSTOMER" "I need help with billing" "R1" "Q1" "Billing" "General" true,
   MatchRow.mk "CALL_1" 12 "CUSTOMER" "billing again" "R1" "Q1" "Billing" "General" true]

/-- Witness for claim C5: on a concrete two-row Match table the summary row
of `CALL_1` counts both rows. -/
theorem c5_witness :
    (SummaryRow.mk "CALL_1" ["Billing"] ["General"] 2).total_hits =
      (c5_mtable.filter fun m =>
        m.call_id == (SummaryRow.mk "CALL_1" ["Billing"] ["General"] 2).call_id).length :=
  ((c5_journey_summary_spec c5_mtable).2.2
    (SummaryRow.mk "CALL_1" ["Billing"] ["General"] 2) (by decide)).1

/-- Claim C10: every row of the Match table returned by
`categorize_utterances` carries the additional boolean column `match`, and
it is true in every row. -/
theorem c10_match_column_true (rsearch : String → String → Bool)
    (utter : List Utterance) (rules : List Rule) :
    ∀ row ∈ (categorize_utterances rsearch utter rules).1, row.«match» = true := by
  intro row hrow
  simp only [categorize_utterances, List.mem_filter] at hrow
  exact hrow.2

/-- Witness for claim C10: the boolean `match` column of the scenario's one
Match row is true. -/
theorem c10_witness :
    (mkMatchRow rsearchDemo (Utterance.mk "CALL_1" 10 "CUSTOMER" "I need help with billing")
      (Rule.mk "R1" "Q1" "Telecom" "Billing" "General" "billing")).«match» = true :=
  c10_match_column_true rsearchDemo c1_utts c1_rules
    (mkMatchRow rsearchDemo (Utterance.mk "CALL_1" 10 "CUSTOMER" "I need help with billing")
      (Rule.mk "R1" "Q1" "Telecom" "Billing" "General" "billing")) (by decide)

/-
Lemmas about digit strings, used to show the `isdigit` branch of
`to_seconds` cannot fail.
-/

theorem pyWs_eq_false_of_digit {c : Char} (h : isDigitChar c = true) : pyWs c = false := by
  cases hw : pyWs c with
  | false => rfl
  | true =>
    have hc := hw
    simp only [pyWs, Bool.or_eq_true, decide_eq_true_eq] at hc
    rcases hc with ((((e | e) | e) | e) | e) | e <;> subst e <;> exact absurd h (by decide)

theorem dropWhile_eq_self_of_all {p : Char → Bool} {l : List Char}
    (h : ∀ c ∈ l, p c = false) : l.dropWhile p = l := by
  cases l with
  | nil => rfl
  | cons a t =>
    rw [List.dropWhile_cons]
    simp [h a (List.mem_cons_self _ _)]

theorem pyWs_eq_false_of_pydigit {c : Char} (h : pyDigitChar c = true) : pyWs c = false := by
  have hc := h
  simp only [pyDigitChar, Bool.or_eq_true, decide_eq_true_eq] at hc
  rcases hc with ((hd | e) | e) | e
  · exact pyWs_eq_false_of_digit hd
  · subst e
    decide
  · subst e
    decide
  · subst e
    decide

theorem pyStripList_eq_self_of_no_ws {l : List Char}
    (h : ∀ c ∈ l, pyWs c = false) : pyStripList l = l := by
  unfold pyStripList
  rw [dropWhile_eq_self_of_all h,
    dropWhile_eq_self_of_all (fun c hc => h c (List.mem_reverse.mp hc)),
    List.reverse_reverse]

theorem pyStripList_eq_self_of_digits {l : List Char}
    (h : ∀ c ∈ l, isDigitChar c = true) : pyStripList l = l :=
  pyStripList_eq_self_of_no_ws fun c hc => pyWs_eq_false_of_digit (h c hc)

theorem pyIntStr_of_digits {l : List Char} (hne : l ≠ [])
    (hall : ∀ c ∈ l, isDigitChar c = true) :
    pyIntStr (String.mk l) = Option.some (Int.ofNat (digitsVal l 0)) := by
  have htl : (String.mk l).toList = l := rfl
  unfold pyIntStr
  rw [htl, pyStripList_eq_self_of_digits hall]
  cases l with
  | nil => exact absurd rfl hne
  | cons c cs =>
    split
    · rename_i ds he
      have hc : c = '-' := (List.cons.injEq _ _ _ _ ▸ he).1
      subst hc
      exact absurd (hall '-' (List.mem_cons_self _ _)) (by decide)
    · rename_i ds he
      have hc : c = '+' := (List.cons.injEq _ _ _ _ ▸ he).1
      subst hc
      exact absurd (hall '+' (List.mem_cons_self _ _)) (by decide)
    · simp [List.all_eq_true.mpr hall]

theorem pyIntStr_eq_none_of_bad_digit {l : List Char}
    (hall : ∀ c ∈ l, pyDigitChar c = true)
    {c0 : Char} (hc0 : c0 ∈ l) (hbad : isDigitChar c0 = false) :
    pyIntStr (String.mk l) = Option.none := by
  have htl : (String.mk l).toList = l := rfl
  unfold pyIntStr
  rw [htl, pyStripList_eq_self_of_no_ws (fun c hc => pyWs_eq_false_of_pydigit (hall c hc))]
  cases l with
  | nil => cases hc0
  | cons a cs =>
    split
    · rename_i ds he
      have ha : a = '-' := (List.cons.injEq _ _ _ _ ▸ he).1
      subst ha
      exact absurd (hall '-' (List.mem_cons_self _ _)) (by decide)
    · rename_i ds he
      have ha : a = '+' := (List.cons.injEq _ _ _ _ ▸ he).1
      subst ha
      exact absurd (hall '+' (List.mem_cons_self _ _)) (by decide)
    · have hfalse : (a :: cs).all isDigitChar = false := by
        cases hv : (a :: cs).all isDigitChar with
        | false => rfl
        | true => exact absurd (List.all_eq_true.mp hv c0 hc0) (by simp [hbad])
      simp [hfalse]

/-- Claim C6 counterexample: `to_seconds` does raise.  The `int(x)` branch
for floats runs outside the `try`, so a NaN raises `ValueError` and an
infinity raises `OverflowError`; and `int(s)` after a successful `isdigit`
test (also outside the `try`) raises `ValueError` on the superscript-digit
string `"²"`, which `isdigit` accepts and `int()` rejects — refuting, at
these concrete inputs, the claim's `int(x)`-for-floats and never-raises
parts. -/
theorem c6_to_seconds_raises :
    to_seconds (PyVal.floatv PyFloat.nan) =
      Except.error (PyError.valueError "cannot convert float NaN to integer") ∧
    to_seconds (PyVal.floatv PyFloat.inf) =
      Except.error (PyError.overflowError "cannot convert float infinity to integer") ∧
    to_seconds (PyVal.strv "²") =
      Except.error (PyError.valueError
        "invalid literal for int() with base 10: \x27²\x27") :=
  ⟨rfl, rfl, rfl⟩

/-- Claim C6 as amended: `to_seconds` returns 0 for `None`, `int(x)` for
integers and finite floats, the integer value of a stripped ASCII-digit
string, `3600*HH + 60*MM + SS` for a non-digit string whose colon split
yields three integer-parsable pieces, and 0 for other unparseable strings
— but it is not fail-soft everywhere: it raises `ValueError` on a float
NaN, `OverflowError` on the infinities, and `ValueError` on a string that
passes `isdigit` while containing a non-decimal digit character, because
both `int()` calls of those branches sit outside the `try`; on every other
input it returns `ok`. -/
theorem c6_to_seconds_amended :
    (to_seconds PyVal.none = Except.ok 0) ∧
    (∀ n : Int, to_seconds (PyVal.intv n) = Except.ok n) ∧
    (∀ t : Int, ∀ rep : String,
        to_seconds (PyVal.floatv (PyFloat.finite t rep)) = Except.ok t) ∧
    (∀ s : String, pyIsDigit (pyStripStr s) = true →
        (∀ c ∈ (pyStripStr s).toList, isDigitChar c = true) →
        to_seconds (PyVal.strv s) =
          Except.ok (Int.ofNat (digitsVal (pyStripStr s).toList 0))) ∧
    (∀ s : String, ∀ c : Char, pyIsDigit (pyStripStr s) = true →
        c ∈ (pyStripStr s).toList → isDigitChar c = false →
        to_seconds (PyVal.strv s) =
          Except.error (PyError.valueError
            ("invalid literal for int() with base 10: \x27" ++ pyStripStr s ++ "\x27"))) ∧
    (∀ s : String, ∀ hh mm ss : Int, pyIsDigit (pyStripStr s) = false →
        parsesHMS (pyStripStr s) = Option.some (hh, mm, ss) →
        to_seconds (PyVal.strv s) = Except.ok (3600 * hh + 60 * mm + ss)) ∧
    (∀ s : String, pyIsDigit (pyStripStr s) = false →
        parsesHMS (pyStripStr s) = Option.none →
        to_seconds (PyVal.strv s) = Except.ok 0) ∧
    (∀ s : String,
        (∀ c ∈ (pyStripStr s).toList, pyDigitChar c = true → isDigitChar c = true) →
        ∃ v : Int, to_seconds (PyVal.strv s) = Except.ok v) := by
  have h4 : ∀ s : String, pyIsDigit (pyStripStr s) = true →
      (∀ c ∈ (pyStripStr s).toList, isDigitChar c = true) →
      to_seconds (PyVal.strv s) =
        Except.ok (Int.ofNat (digitsVal (pyStripStr s).toList 0)) := by
    intro s hs hall
    have hparts := hs
    simp only [pyIsDigit, Bool.and_eq_true, Bool.not_eq_true'] at hparts
    have hne : (pyStripStr s).toList ≠ [] := by
      intro h0
      rw [h0] at hparts
      exact absurd hparts.1 (by decide)
    have heta : String.mk (pyStripStr s).toList = pyStripStr s := rfl
    simp only [to_seconds, hs, if_true]
    rw [← heta, pyIntStr_of_digits hne hall]
    rfl
  have h5 : ∀ s : String, ∀ c : Char, pyIsDigit (pyStripStr s) = true →
      c ∈ (pyStripStr s).toList → isDigitChar c = false →
      to_seconds (PyVal.strv s) =
        Except.error (PyError.valueError
          ("invalid literal for int() with base 10: \x27" ++ pyStripStr s ++ "\x27")) := by
    intro s c hs hc hbad
    have hall : ∀ a ∈ (pyStripStr s).toList, pyDigitChar a = true := by
      have hparts := hs
      simp only [pyIsDigit, Bool.and_eq_true, List.all_eq_true] at hparts
      exact hparts.2
    have heta : String.mk (pyStripStr s).toList = pyStripStr s := rfl
    have hnone : pyIntStr (pyStripStr s) = Option.none := by
      rw [← heta]
      exact pyIntStr_eq_none_of_bad_digit hall hc hbad
    simp only [to_seconds, hs, if_true, hnone]
  have h6 : ∀ s : String, ∀ hh mm ss : Int, pyIsDigit (pyStripStr s) = false →
      parsesHMS (pyStripStr s) = Option.some (hh, mm, ss) →
      to_seconds (PyVal.strv s) = Except.ok (3600 * hh + 60 * mm + ss) := by
    intro s hh mm ss hd hp
    simp only [to_seconds, hd, Bool.false_eq_true, if_false, hp]
  have h7 : ∀ s : String, pyIsDigit (pyStripStr s) = false →
      parsesHMS (pyStripStr s) = Option.none →
      to_seconds (PyVal.strv s) = Except.ok 0 := by
    intro s hd hp
    simp only [to_seconds, hd, Bool.false_eq_true, if_false, hp]
  refine ⟨rfl, fun n => rfl, fun t rep => rfl, h4, h5, h6, h7, ?_⟩
  intro s hascii
  cases hd : pyIsDigit (pyStripStr s) with
  | true =>
    have hall : ∀ c ∈ (pyStripStr s).toList, isDigitChar c = true := by
      have hparts := hd
      simp only [pyIsDigit, Bool.and_eq_true, List.all_eq_true] at hparts
      exact fun c hc => hascii c hc (hparts.2 c hc)
    exact ⟨_, h4 s hd hall⟩
  | false =>
    cases hp : parsesHMS (pyStripStr s) with
    | some q => exact ⟨_, h6 s q.1 q.2.1 q.2.2 hd (by rw [hp])⟩
    | none => exact ⟨0, h7 s hd hp⟩

/-- Witness for amended claim C6: the specification's worked conversions —
`"01:02:03"` to 3723, `" 90 "` to 90, a finite float to its truncation,
and a malformed string to 0. -/
theorem c6_witness :
    to_seconds (PyVal.strv "01:02:03") = Except.ok 3723 ∧
    to_seconds (PyVal.strv " 90 ") = Except.ok 90 ∧
    to_seconds (PyVal.floatv (PyFloat.finite 90 "90.0")) = Except.ok 90 ∧
    to_seconds (PyVal.strv "garbage") = Except.ok 0 := by
  refine ⟨?_, ?_, ?_, ?_⟩
  · have h := c6_to_seconds_amended.2.2.2.2.2.1 "01:02:03" 1 2 3 (by decide) (by decide)
    rw [h]
    norm_num
  · have h := c6_to_seconds_amended.2.2.2.1 " 90 " (by decide) (by decide)
    rw [h]
    rfl
  · exact c6_to_seconds_amended.2.2.1 90 "90.0"
  · exact c6_to_seconds_amended.2.2.2.2.2.2.1 "garbage" (by decide) (by decide)

/-- Utterance table with one term-less utterance (`"hi"` has no run of four
ASCII letters), the input exhibiting the null-term row. -/
def c8_nullrow_utts : List Utterance :=
  [Utterance.mk "C1" 0 "AGENT" "hi"]

/-- Claim C8 counterexample: an utterance from which zero qualifying terms
are extracted still contributes a row — with a null term — to the bucket
table, because polars `explode` maps an empty list to a null row.  Under
the claim's reading (rows are groups of extracted terms) the table for
this input would be empty; the code returns one row. -/
theorem c8_null_term_row :
    extract_terms "hi" = [] ∧
    speaker_term_buckets c8_nullrow_utts = [BucketRow.mk "C1" "AGENT" Option.none 1] :=
  ⟨rfl, rfl⟩

/-- Claim C8 as amended: `speaker_term_buckets` returns exactly the
grouped occurrence counts of the exploded `(call_id, speaker, term)`
triples — where, as polars `explode` does, an utterance with no qualifying
terms contributes a single null-term triple — with at most the first 50
terms extracted per utterance, one row per distinct triple, each row's
`len` counting that triple's occurrences, sorted by `call_id` ascending,
`speaker` ascending, `len` descending; and every extracted term of every
utterance is represented among the triples. -/
theorem c8_buckets_amended (utter : List Utterance) :
    (speaker_term_buckets utter).Perm (groupBuckets utter) ∧
    List.Sorted bucketRel (speaker_term_buckets utter) ∧
    (∀ u ∈ utter, (extract_terms u.text).length ≤ 50) ∧
    (∀ row ∈ speaker_term_buckets utter,
        (row.call_id, row.speaker, row.terms) ∈ explodeTerms utter ∧
        row.len = (explodeTerms utter).count (row.call_id, row.speaker, row.terms)) ∧
    ((speaker_term_buckets utter).map fun row => (row.call_id, row.speaker, row.terms)).Nodup ∧
    (∀ u ∈ utter, ∀ t ∈ extract_terms u.text,
        (u.call_id, u.speaker, Option.some t) ∈ explodeTerms utter) := by
  have hperm : (speaker_term_buckets utter).Perm (groupBuckets utter) :=
    List.perm_insertionSort bucketRel _
  have hkeys : (groupBuckets utter).map (fun row => (row.call_id, row.speaker, row.terms)) =
      (explodeTerms utter).dedup := by
    unfold groupBuckets
    rw [List.map_map]
    exact List.map_id _
  refine ⟨hperm, List.sorted_insertionSort bucketRel _, ?_, ?_, ?_, ?_⟩
  · intro u _
    unfold extract_terms
    exact List.length_take_le _ _
  · intro row hrow
    have hg : row ∈ groupBuckets utter := hperm.mem_iff.mp hrow
    unfold groupBuckets at hg
    obtain ⟨k, hk, hke⟩ := List.mem_map.mp hg
    subst hke
    exact ⟨List.mem_dedup.mp hk, rfl⟩
  · rw [(hperm.map _).nodup_iff, hkeys]
    exact List.nodup_dedup _
  · intro u hu t ht
    unfold explodeTerms
    rw [mem_concatMap]
    refine ⟨u, hu, ?_⟩
    cases hts : (extract_terms u.text).isEmpty with
    | true =>
      have hnil : extract_terms u.text = [] := by
        cases hl : extract_terms u.text with
        | nil => rfl
        | cons a l =>
          rw [hl] at hts
          exact absurd hts (by simp)
      rw [hnil] at ht
      cases ht
    | false =>
      rw [if_neg (by simp [hts])]
      exact List.mem_map.mpr ⟨t, ht, rfl⟩

/-- Utterance table with five qualifying terms, used to instantiate the
amended term-bucket theorem. -/
def c8_utts : List Utterance :=
  [Utterance.mk "C1" 0 "AGENT" "need help with billing today"]

/-- Witness for claim C8: the `billing` bucket row of the concrete table is
keyed by an exploded triple and its `len` is that triple's occurrence
count. -/
theorem c8_witness :
    ((BucketRow.mk "C1" "AGENT" (Option.some "billing") 1).call_id,
      (BucketRow.mk "C1" "AGENT" (Option.some "billing") 1).speaker,
      (BucketRow.mk "C1" "AGENT" (Option.some "billing") 1).terms) ∈ explodeTerms c8_utts ∧
    (BucketRow.mk "C1" "AGENT" (Option.some "billing") 1).len =
      (explodeTerms c8_utts).count
        ((BucketRow.mk "C1" "AGENT" (Option.some "billing") 1).call_id,
          (BucketRow.mk "C1" "AGENT" (Option.some "billing") 1).speaker,
          (BucketRow.mk "C1" "AGENT" (Option.some "billing") 1).terms) :=
  (c8_buckets_amended c8_utts).2.2.2.1 (BucketRow.mk "C1" "AGENT" (Option.some "billing") 1)
    ((c8_buckets_amended c8_utts).1.mem_iff.mpr (by decide))

/-- Discriminator: the computation failed with the specification's
`SchemaError`. -/
def resultIsSchemaError {α : Type} : Except PyError α → Bool
  | Except.error (PyError.schemaError _) => true
  | _ => false

/-- Discriminator: the computation failed with the specification's
`RuleLoadError`. -/
def resultIsRuleLoadError {α : Type} : Except PyError α → Bool
  | Except.error (PyError.ruleLoadError _) => true
  | _ => false

/-- Raw-transcript input of the specification's worked scenario: one row,
one `transcript` column holding the two `[HH:MM:SS SPEAKER]: text` lines. -/
def c2_df : RawDF :=
  RawDF.mk ["transcript"]
    [[("transcript",
       PyVal.strv "[00:00:05 AGENT]: Hello there\n[00:00:10 CUSTOMER]: I need help with billing")]]

/-- Claim C2 evaluated at the specification's scenario input: the first
scenario line already fails the source's line pattern (the pattern demands
`]` immediately after the seconds, i.e. `[HH:MM:SS] SPEAKER: text`, though
the function's own docstring shows `[01:19:57 AGENT]: message`), so zero
rows are produced and the zero-row branch crashes on the undefined name
`st` — instead of the two utterances the claim requires. -/
theorem c2_raw_scenario_nameerror :
    matchLine "[00:00:05 AGENT]: Hello there" = Option.none ∧
    explode_raw_transcript_column c2_df "transcript" Option.none =
      Except.error (PyError.nameError "name \x27st\x27 is not defined") :=
  ⟨rfl, rfl⟩

/-- Raw-transcript input none of whose lines matches the line pattern. -/
def c3_df : RawDF :=
  RawDF.mk ["transcript"] [[("transcript", PyVal.strv "hello world, no brackets here")]]

/-- Claim C3 evaluated at an input with no matching line: the source means
to return an empty four-column utterance table with a warning, but the
warning call `st.warning(...)` references a name the module never imports,
so the function raises `NameError` instead of returning. -/
theorem c3_no_match_nameerror :
    matchLine "hello world, no brackets here" = Option.none ∧
    explode_raw_transcript_column c3_df "transcript" Option.none =
      Except.error (PyError.nameError "name \x27st\x27 is not defined") :=
  ⟨rfl, rfl⟩

/-- Utterance the segmenter actually produces from the line
`[00:00:05] AGENT: Hello` (the shape its regex accepts). -/
def c9_u : URow := URow.mk (PyVal.strv "CALL_1") 5 "AGENT" "Hello"

/-- Input whose one line the segmenter parses into `c9_u`. -/
def c9_df1 : RawDF :=
  RawDF.mk ["transcript"] [[("transcript", PyVal.strv "[00:00:05] AGENT: Hello")]]

/-- The segmenter's output reformatted into a `[HH:MM:SS SPEAKER]: text`
line, as the idempotence claim prescribes, with the call id supplied in its
own column. -/
def c9_df2 : RawDF :=
  RawDF.mk ["call_id", "transcript"]
    [[("call_id", PyVal.strv "CALL_1"), ("transcript", PyVal.strv (reformat_line c9_u))]]

/-- Claim C9 evaluated on a round trip: the segmenter parses
`[00:00:05] AGENT: Hello` into one utterance, but re-parsing that utterance
reformatted as `[00:00:05 AGENT]: Hello` (the claim's clean format) yields
zero rows — the line pattern rejects the reformatted shape — and the
zero-row branch raises `NameError` on the undefined `st`, so the utterance
set is not preserved. -/
theorem c9_reparse_fails :
    explode_raw_transcript_column c9_df1 "transcript" Option.none = Except.ok [c9_u] ∧
    reformat_line c9_u = "[00:00:05 AGENT]: Hello" ∧
    explode_raw_transcript_column c9_df2 "transcript" (Option.some "call_id") =
      Except.error (PyError.nameError "name \x27st\x27 is not defined") :=
  ⟨rfl, rfl, rfl⟩

/-- Rule table lacking the required `compiled_regex` column. -/
def c4_table : RuleTable :=
  RuleTable.mk ["rule_id", "query_name", "industry", "category", "subcategory"]

/-- Filesystem holding only a csv rule file whose table lacks
`compiled_regex`. -/
def c4_fs : List (String × RuleTable) := [("rules/rules_embedded.csv", c4_table)]

/-- Claim C4 counterexample: a rule table lacking the `compiled_regex`
column loads without any error — in particular no `RuleLoadError` — so
rule loading performs no fail-fast column validation. -/
theorem c4_missing_column_loads_ok :
    load_rules c4_fs = Except.ok c4_table ∧
    resultIsRuleLoadError (load_rules c4_fs) = false :=
  ⟨rfl, rfl⟩

/-- Claim C4 as amended: `load_rules` performs no column validation — the
table of the first existing path of `RULE_PATHS` is returned as-is,
whatever its columns — and only when neither rule path exists does loading
fail, with `FileNotFoundError` (no `RuleLoadError` type exists in the
repository). -/
theorem c4_load_rules_amended :
    (∀ fs : List (String × RuleTable), ∀ t : RuleTable,
        fs.lookup "rules/rules_embedded.parquet" = Option.some t →
        load_rules fs = Except.ok t) ∧
    (∀ fs : List (String × RuleTable), ∀ t : RuleTable,
        fs.lookup "rules/rules_embedded.parquet" = Option.none →
        fs.lookup "rules/rules_embedded.csv" = Option.some t →
        load_rules fs = Except.ok t) ∧
    (∀ fs : List (String × RuleTable),
        fs.lookup "rules/rules_embedded.parquet" = Option.none →
        fs.lookup "rules/rules_embedded.csv" = Option.none →
        load_rules fs = Except.error (PyError.fileNotFoundError
          "Rules not found. Place your compiled rules at rules/rules_embedded.csv or .parquet")) := by
  refine ⟨?_, ?_, ?_⟩
  · intro fs t h
    simp [load_rules, RULE_PATHS, List.findSome?_cons, h]
  · intro fs t h1 h2
    simp [load_rules, RULE_PATHS, List.findSome?_cons, h1, h2]
  · intro fs h1 h2
    simp [load_rules, RULE_PATHS, List.findSome?_cons, h1, h2]

/-- Witness for amended claim C4: with no rule file present at either
path, loading fails with `FileNotFoundError`. -/
theorem c4_witness :
    load_rules [] = Except.error (PyError.fileNotFoundError
      "Rules not found. Place your compiled rules at rules/rules_embedded.csv or .parquet") :=
  c4_load_rules_amended.2.2 [] rfl rfl

/-- Input table without the requested raw-transcript column. -/
def c7_df : RawDF :=
  RawDF.mk ["a", "b"] [[("a", PyVal.intv 1), ("b", PyVal.intv 2)]]

/-- Claim C7 counterexample: when the raw column is absent the error
raised is a `ValueError` — its message does name the missing column and
list the available columns — not the `SchemaError` the claim requires
(no `SchemaError` type exists in the repository). -/
theorem c7_error_not_schemaerror :
    explode_raw_transcript_column c7_df "transcript" Option.none =
      Except.error (PyError.valueError
        "Column \x27transcript\x27 not found. Available columns: [\x27a\x27, \x27b\x27]") ∧
    resultIsSchemaError (explode_raw_transcript_column c7_df "transcript" Option.none) = false :=
  ⟨rfl, rfl⟩

/-- Claim C7 as amended: for every input table and raw-column name, if the
named column is absent the function fails — with `ValueError`, not
`SchemaError` — and the message names the missing column and lists the
available columns; no utterance rows are produced. -/
theorem c7_missing_column_valueerror (df : RawDF) (raw_col : String) (cid : Option String)
    (h : df.columns.contains raw_col = false) :
    explode_raw_transcript_column df raw_col cid =
      Except.error (PyError.valueError
        ("Column \x27" ++ raw_col ++ "\x27 not found. Available columns: "
          ++ pyReprStrList df.columns)) := by
  unfold explode_raw_transcript_column
  rw [if_neg (by simpa using h)]

/-- Witness for amended claim C7: a concrete table with columns `a`, `b`
and the request for column `text`. -/
theorem c7_witness :
    explode_raw_transcript_column (RawDF.mk ["a", "b"] []) "text" Option.none =
      Except.error (PyError.valueError
        ("Column \x27" ++ "text" ++ "\x27 not found. Available columns: "
          ++ pyReprStrList (RawDF.mk ["a", "b"] []).columns)) :=
  c7_missing_column_valueerror (RawDF.mk ["a", "b"] []) "text" Option.none (by decide)
